import Mathlib

/-!
Verification of the devops-challenge repository's NestJS application code and
of its declarative CI/CD and infrastructure artifacts, shallowly embedded in
Lean 4. Stateless controller methods become pure Lean functions; the
environment configuration becomes an explicit record of optional strings;
workflow behaviour documented in the repository (the workflow YAML itself is
not part of the sources at hand) is modelled from the specification.
-/

namespace DevopsChallenge

/-! ## Health controller (src/health.controller.ts) -/

/-- The `database` sub-object of the health response. -/
structure DatabaseHealth where
  status : String
  readyState : Int
deriving Repr, DecidableEq

/-- The JSON body returned by `HealthController.check`. -/
structure HealthResponse where
  status : String
  timestamp : String
  database : DatabaseHealth
deriving Repr, DecidableEq

/-- `HealthController.getConnectionStatus`: the lookup in the `states`
record with the `?? 'unknown'` fallback. -/
def getConnectionStatus (state : Int) : String :=
  if state = 0 then "disconnected"
  else if state = 1 then "connected"
  else if state = 2 then "connecting"
  else if state = 3 then "disconnecting"
  else "unknown"

/-- `HealthController.check`: reads the connection's `readyState`, compares
it to `CONNECTED_STATE = 1`, and assembles the response body. The timestamp
`new Date().toISOString()` is passed in as `now`. -/
def HealthController.check (readyState : Int) (now : String) : HealthResponse :=
  let CONNECTED_STATE : Int := 1
  let isHealthy : Bool := readyState == CONNECTED_STATE
  { status := if isHealthy then "healthy" else "unhealthy"
    timestamp := now
    database :=
      { status := getConnectionStatus readyState
        readyState := readyState } }

/-! ## MongoDB URI construction (src/app.module.ts, `useFactory`) -/

/-- The environment variables consulted by the Mongoose `useFactory`.
`none` models an unset variable (ConfigService returns `undefined`);
`some s` models a variable set to the string `s`. -/
structure MongoEnv where
  MONGODB_URI : Option String
  MONGO_USERNAME : Option String
  MONGO_PASSWORD : Option String
  MONGO_HOST : Option String
  MONGO_PORT : Option String
  MONGO_DATABASE : Option String
  MONGO_AUTH_SOURCE : Option String
deriving Repr, DecidableEq

/-- The `// Build URI from individual components` branch of the factory. -/
def buildUri (env : MongoEnv) : String :=
  let username := env.MONGO_USERNAME.getD ""
  let password := env.MONGO_PASSWORD.getD ""
  let host := env.MONGO_HOST.getD "localhost"
  let port := env.MONGO_PORT.getD "27017"
  let database := env.MONGO_DATABASE.getD "tech_challenge"
  let authSource := env.MONGO_AUTH_SOURCE.getD "admin"
  let credentials :=
    if username ≠ "" ∧ password ≠ "" then username ++ ":" ++ password ++ "@" else ""
  "mongodb://" ++ credentials ++ host ++ ":" ++ port ++ "/" ++ database ++
    "?authSource=" ++ authSource

/-- The whole `useFactory`: `if (mongodbUri) return { uri: mongodbUri }` uses
JavaScript truthiness, so the `MONGODB_URI` variable is taken verbatim only
when it is defined and non-empty; otherwise the URI is assembled from the
individual components. -/
def mongoUri (env : MongoEnv) : String :=
  match env.MONGODB_URI with
  | some uri => if uri ≠ "" then uri else buildUri env
  | none => buildUri env

/-- The component-wise URI formula as the claim words it: defaults
`localhost`, `27017`, `tech_challenge`, `admin`, and a `username:password@`
credentials block exactly when both username and password are non-empty. -/
def claimBuiltUri (env : MongoEnv) : String :=
  let credentials :=
    if env.MONGO_USERNAME.getD "" ≠ "" ∧ env.MONGO_PASSWORD.getD "" ≠ "" then
      env.MONGO_USERNAME.getD "" ++ ":" ++ env.MONGO_PASSWORD.getD "" ++ "@"
    else ""
  "mongodb://" ++ credentials ++ env.MONGO_HOST.getD "localhost" ++ ":" ++
    env.MONGO_PORT.getD "27017" ++ "/" ++ env.MONGO_DATABASE.getD "tech_challenge" ++
    "?authSource=" ++ env.MONGO_AUTH_SOURCE.getD "admin"

/-- A configuration with `MONGODB_URI` set to the empty string and every
other variable unset. -/
def emptyUriEnv : MongoEnv :=
  { MONGODB_URI := some ""
    MONGO_USERNAME := none
    MONGO_PASSWORD := none
    MONGO_HOST := none
    MONGO_PORT := none
    MONGO_DATABASE := none
    MONGO_AUTH_SOURCE := none }

/-! ## Theorems for the health controller -/

/-- C2: for every readyState value `s`, the health body's top-level status is
"healthy" iff `s = 1` ("unhealthy" otherwise), `database.readyState` echoes
`s`, and `database.status` names the connection state for `s ∈ {0,1,2,3}`. -/
theorem health_check_reflects_connection_state (s : Int) (now : String) :
    ((HealthController.check s now).status = "healthy" ↔ s = 1) ∧
    (s ≠ 1 → (HealthController.check s now).status = "unhealthy") ∧
    (HealthController.check s now).database.readyState = s ∧
    (s = 0 → (HealthController.check s now).database.status = "disconnected") ∧
    (s = 1 → (HealthController.check s now).database.status = "connected") ∧
    (s = 2 → (HealthController.check s now).database.status = "connecting") ∧
    (s = 3 → (HealthController.check s now).database.status = "disconnecting") := by
  refine ⟨?_, ?_, rfl, ?_, ?_, ?_, ?_⟩ <;>
    simp only [HealthController.check, getConnectionStatus, beq_iff_eq]
  · constructor
    · intro h
      by_contra hne
      simp [hne] at h
    · intro h; simp [h]
  · intro h; simp [h]
  · intro h; subst h; rfl
  · intro h; subst h; rfl
  · intro h; subst h; rfl
  · intro h; subst h; rfl

/-- Witness for C2 at `s = 1`. -/
theorem health_check_reflects_connection_state_witness :
    ((HealthController.check 1 "t").status = "healthy" ↔ (1 : Int) = 1) ∧
    (HealthController.check 1 "t").database.status = "connected" :=
  ⟨(health_check_reflects_connection_state 1 "t").1,
   (health_check_reflects_connection_state 1 "t").2.2.2.2.1 rfl⟩

/-- C3: `check` is total on the readyState input: for every integer outside
{0, 1, 2, 3} it still returns a response, with `database.status = "unknown"`
and top-level status `"unhealthy"`. -/
theorem health_check_total_outside_known_states (s : Int) (now : String)
    (h : s ≠ 0 ∧ s ≠ 1 ∧ s ≠ 2 ∧ s ≠ 3) :
    (HealthController.check s now).database.status = "unknown" ∧
    (HealthController.check s now).status = "unhealthy" := by
  obtain ⟨h0, h1, h2, h3⟩ := h
  constructor
  · simp [HealthController.check, getConnectionStatus, h0, h1, h2, h3]
  · simp [HealthController.check, h1]

/-- Witness for C3 at `s = 42`. -/
theorem health_check_total_outside_known_states_witness :
    (HealthController.check 42 "t").database.status = "unknown" ∧
    (HealthController.check 42 "t").status = "unhealthy" :=
  health_check_total_outside_known_states 42 "t" (by decide)

/-! ## Theorems for the MongoDB URI factory -/

/-- C4 counterexample: with `MONGODB_URI` set (to the empty string), the
factory does NOT return it verbatim — JavaScript truthiness sends the empty
string down the component-built branch, so the resulting URI is the default
`mongodb://localhost:27017/tech_challenge?authSource=admin`, not `""`. -/
theorem mongoUri_set_not_always_verbatim :
    emptyUriEnv.MONGODB_URI = some "" ∧
    mongoUri emptyUriEnv ≠ "" ∧
    mongoUri emptyUriEnv = "mongodb://localhost:27017/tech_challenge?authSource=admin" := by
  refine ⟨rfl, ?_, rfl⟩
  decide

/-- C4 (amended): if `MONGODB_URI` is set to a non-empty string the
connection URI equals it verbatim; if it is unset or empty the URI equals the
component formula with defaults `localhost`, `27017`, `tech_challenge`,
`admin` and a credentials block iff both username and password are
non-empty. -/
theorem mongoUri_spec (env : MongoEnv) :
    (∀ u, env.MONGODB_URI = some u → u ≠ "" → mongoUri env = u) ∧
    ((env.MONGODB_URI = none ∨ env.MONGODB_URI = some "") →
      mongoUri env = claimBuiltUri env) := by
  constructor
  · intro u hu hne
    simp [mongoUri, hu, hne]
  · intro h
    have hbuild : buildUri env = claimBuiltUri env := by
      simp [buildUri, claimBuiltUri]
    rcases h with h | h <;> simp [mongoUri, h, hbuild]

/-- Witness for C4's amended theorem: both branches at concrete
configurations. -/
theorem mongoUri_spec_witness :
    mongoUri
      { emptyUriEnv with MONGODB_URI := some "mongodb://db:27017/x" } =
      "mongodb://db:27017/x" ∧
    mongoUri { emptyUriEnv with MONGODB_URI := none } =
      claimBuiltUri { emptyUriEnv with MONGODB_URI := none } :=
  ⟨(mongoUri_spec _).1 "mongodb://db:27017/x" rfl (by decide),
   (mongoUri_spec _).2 (Or.inl rfl)⟩

/-! ## Root endpoint (spec-modelled: `src/app.controller.ts` is not among
the sources; behaviour taken from the spec and the controller's unit test) -/

/-- The parts of the Express request read by `visitorInfo`. -/
structure HttpRequest where
  method : String
  path : String
  userAgent : String
deriving Repr, DecidableEq

/-- The JSON envelope returned by `GET /`. -/
structure VisitorInfoResponse where
  request : String
  user_agent : String
deriving Repr, DecidableEq

/-- A call made to the visits service. -/
inductive VisitsCall where
  | create (method : String) (path : String)
  | findAll
deriving Repr, DecidableEq

/-- Modelled from the spec: `AppController.visitorInfo` (its source file is
not among the sources at hand; its unit test and the spec fix the
behaviour). It returns the envelope echoing `"[method] path"` and the
User-Agent header, and records the visit through the visits service's
`create`. The second component lists the service calls it performs. -/
def AppController.visitorInfo (req : HttpRequest) :
    VisitorInfoResponse × List VisitsCall :=
  ({ request := "[" ++ req.method ++ "] " ++ req.path
     user_agent := req.userAgent },
   [VisitsCall.create req.method req.path])

/-! ## Metrics endpoint (src/main.ts, `/metrics` handler) -/

/-- The prom-client registry surface used by the handler: its exposition
content type and its rendered metrics text. -/
structure PromRegistry where
  contentType : String
  metrics : String
deriving Repr, DecidableEq

/-- The response assembled by the handler: headers set via `res.set` and the
body passed to `res.end`. -/
structure HttpResponse where
  headers : List (String × String)
  body : String
deriving Repr, DecidableEq

/-- The `/metrics` handler: `res.set('Content-Type', register.contentType)`
then `res.end(await register.metrics())`. -/
def metricsHandler (register : PromRegistry) : HttpResponse :=
  { headers := [("Content-Type", register.contentType)]
    body := register.metrics }

/-! ## Visits data model (spec-modelled: `visit.schema.ts` and
`visits.service.ts` are not among the sources; the schema fields come from
the spec and the service surface from its unit test's mock model). -/

/-- Modelled from the spec: the `Visit` Mongoose schema, with exactly the
fields `method`, `path`, `timestamp`. -/
structure Visit where
  method : String
  path : String
  timestamp : String
deriving Repr, DecidableEq

/-- Modelled from the spec: the operations the visits service exposes — a
`create` and a `find`, and nothing else. -/
inductive VisitsServiceOp where
  | create (v : Visit)
  | findAll
deriving Repr, DecidableEq

/-! ## CI/CD pipeline (spec-modelled: the `.github/workflows` YAML is not
among the sources; behaviour taken from the spec and the repository's CI/CD
documentation). -/

/-- A build event the registry-publishing workflows react to. -/
inductive BuildEvent where
  | pushMain (sha : String)
  | releaseTag (major : String) (minor : String) (patch : String)
deriving Repr, DecidableEq

/-- Modelled from the spec: the image tag sets documented in the CI/CD
docs' Image Tag Strategy — a push to `main` without a tag produces the single
tag `main-{sha}`; a release tag `vX.Y.Z` produces `vX.Y.Z`, `vX.Y`, `vX`,
`latest`. -/
def imageTags : BuildEvent → List String
  | .pushMain sha => ["main-" ++ sha]
  | .releaseTag x y z =>
      ["v" ++ x ++ "." ++ y ++ "." ++ z,
       "v" ++ x ++ "." ++ y,
       "v" ++ x,
       "latest"]

/-- Modelled from the spec: the full image reference for a tag, under the
repository's ghcr.io namespace. -/
def registryImage (tag : String) : String :=
  "ghcr.io/j-hashed-gomez/devops-challenge:" ++ tag

/-- An event that can reach the CI pipeline. -/
inductive WorkflowTrigger where
  | pushBranch (branch : String)
  | pushTag (tag : String)
  | manualDispatch
deriving Repr, DecidableEq

/-- A tag matching the `v*.*.*` filter: it starts with `v` and the rest has
at least three dot-separated groups. -/
def matchesSemverFilter (s : String) : Bool :=
  "v".isPrefixOf s && ((s.drop 1).splitOn ".").length ≥ 3

/-- Modelled from the spec: which events start a CI run — pushes to `dev`,
tags matching `v*.*.*`, and manual dispatch. -/
def triggersPipeline : WorkflowTrigger → Bool
  | .pushBranch b => b == "dev"
  | .pushTag t => matchesSemverFilter t
  | .manualDispatch => true

/-- The outcomes of the pipeline's quality gates. -/
structure PipelineChecks where
  lintOk : Bool
  testsOk : Bool
  scanOk : Bool
deriving Repr, DecidableEq

/-- What the pipeline run produces. -/
structure PipelineOutcome where
  mergedToMain : Bool
  issueOpened : Bool
deriving Repr, DecidableEq

/-- Modelled from the spec: failure propagation — when lint, tests and the
security scan all pass, the merge proceeds and no issue is opened; when any
fails, the merge is blocked and a GitHub issue is opened. -/
def runPipeline (c : PipelineChecks) : PipelineOutcome :=
  if c.lintOk && c.testsOk && c.scanOk then
    { mergedToMain := true, issueOpened := false }
  else
    { mergedToMain := false, issueOpened := true }

/-! ## Terraform root module outputs (spec-modelled: the root `outputs.tf`
is not among the sources; the output list comes from the spec and the
Terraform README's Outputs section). -/

/-- Modelled from the spec: the names of the Terraform root module's
outputs, as listed in the Terraform documentation's Outputs section. -/
def terraformRootOutputs : List String :=
  ["cluster_name", "cluster_endpoint", "configure_kubectl",
   "vpc_id", "private_subnet_ids", "public_subnet_ids"]

/-! ## Theorems for the application endpoints and data model -/

/-- C1: for every request with method `m`, path `p` and User-Agent `u`,
`GET /` returns the envelope with `request = "[m] p"` and `user_agent = u`,
and performs a `create` call on the visits service. -/
theorem visitorInfo_echoes_and_records (req : HttpRequest) :
    (AppController.visitorInfo req).1 =
      { request := "[" ++ req.method ++ "] " ++ req.path
        user_agent := req.userAgent } ∧
    VisitsCall.create req.method req.path ∈ (AppController.visitorInfo req).2 := by
  exact ⟨rfl, List.mem_singleton.mpr rfl⟩

/-- C5: every `GET /metrics` response carries the registry's `contentType`
as its Content-Type header and the registry's rendered metrics as its
body. -/
theorem metrics_prometheus_exposition (register : PromRegistry) :
    ("Content-Type", register.contentType) ∈ (metricsHandler register).headers ∧
    (metricsHandler register).body = register.metrics :=
  ⟨List.mem_singleton.mpr rfl, rfl⟩

/-- C6: the `Visit` model consists exactly of the fields `method`, `path`,
`timestamp` (two visits agreeing on those three fields are equal), and the
visits service's operations are only `create` and `find` — no update, no
delete. -/
theorem visit_model_insert_read_only :
    (∀ a b : Visit, a.method = b.method → a.path = b.path →
      a.timestamp = b.timestamp → a = b) ∧
    (∀ op : VisitsServiceOp,
      (∃ v, op = VisitsServiceOp.create v) ∨ op = VisitsServiceOp.findAll) := by
  constructor
  · intro a b hm hp ht
    cases a; cases b
    simp_all
  · intro op
    cases op with
    | create v => exact Or.inl ⟨v, rfl⟩
    | findAll => exact Or.inr rfl

/-- Witness for C6 at two concrete equal visits. -/
theorem visit_model_insert_read_only_witness :
    ({ method := "GET", path := "/", timestamp := "t" } : Visit) =
      { method := "GET", path := "/", timestamp := "t" } :=
  visit_model_insert_read_only.1 _ _ rfl rfl rfl

/-! ## Theorems for CI/CD and Terraform -/

/-- C7: a push to main without a tag publishes exactly one image, tagged
`main-{sha}`; a release tag `vX.Y.Z` publishes images tagged `vX.Y.Z`,
`vX.Y`, `vX` and `latest`; every published image lives under the
repository's ghcr.io namespace. -/
theorem image_tag_strategy (sha x y z : String) :
    imageTags (BuildEvent.pushMain sha) = ["main-" ++ sha] ∧
    imageTags (BuildEvent.releaseTag x y z) =
      ["v" ++ x ++ "." ++ y ++ "." ++ z, "v" ++ x ++ "." ++ y, "v" ++ x, "latest"] ∧
    (∀ t, registryImage t = "ghcr.io/j-hashed-gomez/devops-challenge:" ++ t) := by
  exact ⟨rfl, rfl, fun t => rfl⟩

/-- C8: the CI trigger set is exactly pushes to `dev`, tags matching
`v*.*.*`, and manual dispatch: each of these starts a run, and a branch push
other than `dev` or a tag not matching the filter starts none. -/
theorem ci_trigger_set :
    (∀ b, triggersPipeline (WorkflowTrigger.pushBranch b) = true ↔ b = "dev") ∧
    (∀ t, triggersPipeline (WorkflowTrigger.pushTag t) = true ↔
      matchesSemverFilter t = true) ∧
    triggersPipeline WorkflowTrigger.manualDispatch = true := by
  refine ⟨?_, ?_, rfl⟩
  · intro b
    simp [triggersPipeline]
  · intro t
    simp [triggersPipeline]

/-- C9: if lint, tests or the scan fails, the merge is blocked and a GitHub
issue is opened; if all succeed, the merge is not blocked and no issue is
opened. -/
theorem pipeline_failure_propagation (c : PipelineChecks) :
    (¬(c.lintOk = true ∧ c.testsOk = true ∧ c.scanOk = true) →
      (runPipeline c).mergedToMain = false ∧ (runPipeline c).issueOpened = true) ∧
    ((c.lintOk = true ∧ c.testsOk = true ∧ c.scanOk = true) →
      (runPipeline c).mergedToMain = true ∧ (runPipeline c).issueOpened = false) := by
  cases hb : (c.lintOk && c.testsOk && c.scanOk) with
  | false =>
    refine ⟨fun _ => ?_, fun h => absurd hb ?_⟩
    · simp [runPipeline, hb]
    · simp [h.1, h.2.1, h.2.2]
  | true =>
    refine ⟨fun h => absurd ?_ h, fun _ => ?_⟩
    · simpa [Bool.and_eq_true, and_assoc] using hb
    · simp [runPipeline, hb]

/-- Witness for C9: a failing scan blocks the merge and opens an issue. -/
theorem pipeline_failure_propagation_witness :
    (runPipeline { lintOk := true, testsOk := true, scanOk := false }).mergedToMain
      = false ∧
    (runPipeline { lintOk := true, testsOk := true, scanOk := false }).issueOpened
      = true :=
  (pipeline_failure_propagation _).1 (by decide)

/-- C10: the Terraform root module's outputs include the cluster endpoint,
the VPC id, and both subnet id lists. -/
theorem terraform_outputs_include_core_ids :
    "cluster_endpoint" ∈ terraformRootOutputs ∧
    "vpc_id" ∈ terraformRootOutputs ∧
    "private_subnet_ids" ∈ terraformRootOutputs ∧
    "public_subnet_ids" ∈ terraformRootOutputs := by
  decide

end DevopsChallenge
